import Mathlib

/-
Shallow embedding of the K8-Fan-Controller cooling daemon
(src/k8_fan_controller/policy.py, temperature.py, controller.py,
safety.py, sensors.py), together with theorems settling the claims
about its adaptive speed-control policy and control loop.

Temperatures and other Python floats are modelled as rationals;
Python ints as integers.  Python dict state that is only ever read
pointwise is modelled as functions into Option; dicts that are
iterated are modelled as association lists.
-/

namespace K8Fan

/-- Python int() applied to a rational: truncation toward zero. -/
def pyInt (q : ℚ) : ℤ := if q < 0 then ⌈q⌉ else ⌊q⌋

/-- The configuration keys read by the policy, safety manager and
controller.  ConfigManager.validate (config.py) guarantees presence of
the required keys and coerces the adaptive values, so a total record is
faithful. -/
structure Config where
  emergency_temp : ℚ
  max_fan_speed : ℤ
  hysteresis : ℚ
  ramp_start : ℚ
  ramp_range : ℚ
  curve_min_speed : ℤ
  critical_temp : ℚ
  rpm_ignore_floor : ℤ
  min_speed_change : ℤ
  adaptive_enabled : Bool
  adaptive_drop_step : ℤ
  adaptive_raise_step : ℤ
  adaptive_stable_cycles : ℤ
  adaptive_temp_window : ℚ
  adaptive_temp_aggressive : ℚ

/-- SpeedPolicy._load_adaptive_settings: drop_step = max(1, int(adaptive_drop_step)). -/
def Config.drop_step (c : Config) : ℤ := max 1 c.adaptive_drop_step

/-- SpeedPolicy._load_adaptive_settings: raise_step = max(1, int(adaptive_raise_step)). -/
def Config.raise_step (c : Config) : ℤ := max 1 c.adaptive_raise_step

/-- SpeedPolicy._load_adaptive_settings: stable_cycles_required = max(1, int(adaptive_stable_cycles)). -/
def Config.stable_cycles_required (c : Config) : ℤ := max 1 c.adaptive_stable_cycles

/-- SpeedPolicy._target_percent (policy.py).  Computes the target fan
percent from temperature using the configured ramp. -/
def target_percent (cfg : Config) (target_temp : ℚ) (current_percent : ℤ) : ℤ :=
  let rstart : ℚ := cfg.ramp_start
  let rrange : ℚ := max cfg.ramp_range 1
  let min_spd : ℤ := cfg.curve_min_speed
  let max_speed : ℤ := cfg.max_fan_speed
  let effective_threshold : ℚ :=
    rstart - (if min_spd < current_percent then cfg.hysteresis else 0)
  if target_temp ≤ effective_threshold then min_spd
  else if target_temp ≥ rstart + rrange then max_speed
  else
    let frac : ℚ := (target_temp - effective_threshold) / rrange
    let frac : ℚ := max 0 (min 1 frac)
    min_spd + pyInt (frac * ((max_speed : ℚ) - (min_spd : ℚ)))

/-- Per-role adaptive state kept in SpeedPolicy.role_state. -/
structure RoleState where
  stable_cycles : ℤ
  last_temp : ℚ
  last_speed : ℤ
deriving DecidableEq

/-- SpeedPolicy.calculate_fan_speed (policy.py).  Returns the computed
percent together with the updated role_state table. -/
def calculate_fan_speed (cfg : Config) (role : String) (target_temp : ℚ)
    (current_speed : Option ℤ) (role_state : String → Option RoleState) :
    ℤ × (String → Option RoleState) :=
  if target_temp ≥ cfg.emergency_temp then
    (cfg.max_fan_speed, role_state)
  else
    let base_target : ℤ :=
      target_percent cfg target_temp (current_speed.getD 0)
    if cfg.adaptive_enabled = false then (base_target, role_state)
    else
      let current : ℤ := current_speed.getD base_target
      -- setdefault inserts a fresh state when the role is absent; the
      -- unconditional writes at the end overwrite all of its fields, so
      -- only the final insertion is observable.
      let st : RoleState := (role_state role).getD ⟨0, target_temp, current⟩
      let delta_temp : ℚ := target_temp - st.last_temp
      let abs_delta : ℚ := |delta_temp|
      let stable_cycles : ℤ := st.stable_cycles
      let step : ℤ × ℤ :=
        if base_target < current then
          let sc1 : ℤ :=
            if delta_temp ≤ 0 ∨ abs_delta ≤ cfg.adaptive_temp_window then
              min (stable_cycles + 1) (cfg.stable_cycles_required * 3)
            else 0
          if cfg.stable_cycles_required ≤ sc1 ∧ target_temp ≤ cfg.ramp_start then
            (max (current - cfg.drop_step) base_target, 0)
          else (current, sc1)
        else if current < base_target then
          if cfg.adaptive_temp_aggressive ≤ delta_temp ∨ cfg.ramp_start ≤ target_temp then
            (base_target, 0)
          else (min base_target (current + cfg.raise_step), 0)
        else
          (base_target,
            if cfg.adaptive_temp_window < abs_delta then 0
            else min (stable_cycles + 1) (cfg.stable_cycles_required * 3))
      let new_speed : ℤ := step.1
      let st1 : RoleState := ⟨step.2, target_temp, new_speed⟩
      (max cfg.curve_min_speed (min cfg.max_fan_speed new_speed),
        fun r => if r = role then some st1 else role_state r)

/-- SpeedPolicy.apply_rpm_floors (policy.py): deliberately the identity,
the proactive RPM-floor logic was removed. -/
def apply_rpm_floors (target_speeds : List (String × ℤ))
    (_current_speeds _current_rpms : String → Option ℤ) : List (String × ℤ) :=
  target_speeds

/-- Loop body of SpeedPolicy.clamp_floor_when_lowering for a single role:
given the raw target and the (optional) current percent and RPM of that
role, either keep the target or veto the reduction and hold the current
percent. -/
def clamp_entry (cfg : Config) (raw_target : ℤ)
    (cur_pct cur_rpm : Option ℤ) : ℤ :=
  match cur_pct, cur_rpm with
  | some p, some r =>
    if 0 < p ∧ 0 < r ∧ raw_target < p then
      let est_rpm : ℚ := (r : ℚ) * ((raw_target : ℚ) / (p : ℚ))
      if est_rpm < (cfg.rpm_ignore_floor : ℚ) then p else raw_target
    else raw_target
  | _, _ => raw_target

/-- SpeedPolicy.clamp_floor_when_lowering (policy.py): per-role RPM-floor
guard against lowering a fan below its ignore floor. -/
def clamp_floor_when_lowering (cfg : Config) (target_speeds : List (String × ℤ))
    (current_speeds current_rpms : String → Option ℤ) : List (String × ℤ) :=
  target_speeds.map fun p =>
    (p.1, clamp_entry cfg p.2 (current_speeds p.1) (current_rpms p.1))

/-- Loop body of SpeedPolicy.smooth_targets for one role: clamp to 0..100. -/
def smooth_entry (raw_target : ℤ) : ℤ := max 0 (min 100 raw_target)

/-- SpeedPolicy.smooth_targets (policy.py): apply targets directly,
clamped to 0..100. -/
def smooth_targets (target_speeds : List (String × ℤ)) : List (String × ℤ) :=
  target_speeds.map fun p => (p.1, smooth_entry p.2)

/-- TemperatureHistory (temperature.py).  _samples and _last_seen are
modelled pointwise as functions; `sensors` carries the key list of the
_samples dict (its iteration order), so the dict is the pair
(sensors, samples).  A sensor that was popped from _last_seen reads back
as 0 via .get(sensor, 0), so removal from _last_seen is modelled as
resetting to 0; the two dicts always have the same keys in the source,
hence this is observationally identical. -/
structure History where
  max_samples : ℤ
  samples : String → Option (List ℚ)
  sensors : List String
  last_seen : String → ℤ
  cycle : ℤ

/-- TemperatureHistory.__init__: maxlen = max(1, int(max_samples)). -/
def History.maxlen (h : History) : ℤ := max 1 h.max_samples

/-- The deque capacity as a natural number (it is always at least 1). -/
def History.maxlenNat (h : History) : ℕ := (max 1 h.max_samples).toNat

/-- TemperatureHistory.__init__ (temperature.py). -/
def History.init (max_samples : ℤ) : History :=
  ⟨max_samples, fun _ => none, [], fun _ => 0, 0⟩

/-- Appending to a deque with maxlen cap: keep the last cap elements. -/
def pushCap (xs : List ℚ) (v : ℚ) (cap : ℕ) : List ℚ :=
  let ys := xs ++ [v]
  ys.drop (ys.length - cap)

/-- One iteration of the append loop in TemperatureHistory.update:
series.append(float(value)); self._last_seen[sensor] = self._cycle. -/
def History.append_reading (h : History) (sensor : String) (value : ℚ) : History :=
  let series := (h.samples sensor).getD []
  let series1 := pushCap series value h.maxlenNat
  { h with
    samples := fun s => if s = sensor then some series1 else h.samples s,
    sensors := if h.sensors.contains sensor then h.sensors else h.sensors ++ [sensor],
    last_seen := fun s => if s = sensor then h.cycle else h.last_seen s }

/-- The stale-drop loop at the end of TemperatureHistory.update: pop every
sensor whose last_seen is at or before cycle - maxlen. -/
def History.purge (h : History) : History :=
  let stale_cutoff : ℤ := h.cycle - h.maxlen
  { h with
    samples := fun s => if h.last_seen s ≤ stale_cutoff then none else h.samples s,
    sensors := h.sensors.filter fun s => !(decide (h.last_seen s ≤ stale_cutoff)),
    last_seen := fun s => if h.last_seen s ≤ stale_cutoff then 0 else h.last_seen s }

/-- TemperatureHistory.update (temperature.py): empty input is a no-op,
otherwise advance the cycle, append every reading, then drop stale
sensors. -/
def History.update (h : History) (temperatures : List (String × ℚ)) : History :=
  if temperatures.isEmpty then h
  else
    History.purge
      (temperatures.foldl (fun acc p => acc.append_reading p.1 p.2)
        { h with cycle := h.cycle + 1 })

/-- TemperatureHistory.averaged (temperature.py), as the association list
of per-sensor means over the retained samples. -/
def History.averaged_list (h : History) : List (String × ℚ) :=
  h.sensors.filterMap fun s =>
    match h.samples s with
    | none => none
    | some values =>
      if values.isEmpty then none
      else some (s, values.sum / (values.length : ℚ))

/-- SensorsReader.validate_temperatures (sensors.py): non-empty and every
reading within 0..150 (the critical-sensors part only logs a warning). -/
def validate_temperatures (temperatures : List (String × ℚ)) : Bool :=
  if temperatures.isEmpty then false
  else temperatures.all fun p => !(decide (p.2 < 0) || decide (p.2 > 150))

/-- Substring containment, Python `needle in hay`. -/
def strContains (hay needle : String) : Bool :=
  (List.range (hay.length + 1)).any fun i => needle.data.isPrefixOf (hay.data.drop i)

/-- Python `name.split(sep, 1)[0]`: the part before the first colon. -/
def adapterOf (name : String) : String := ((name.splitOn ":").headD name)

/-- SensorsReader.sensors_for_role (sensors.py): filter the temperature
dict to the adapters configured for the role, falling back to all
sensors when the mapping or the filtered result is empty. -/
def sensors_for_role (critical_sensors_by_role : List (String × List String))
    (temperatures : List (String × ℚ)) (role : String) : List (String × ℚ) :=
  match (critical_sensors_by_role.find? fun p => p.1 == role).map Prod.snd with
  | none => temperatures
  | some adapters =>
    if adapters.isEmpty then temperatures
    else
      let out := temperatures.filter fun p =>
        adapters.any fun a => strContains (adapterOf p.1) a
      if out.isEmpty then temperatures else out

/-- SpeedPolicy.target_temp_for_role (policy.py): max of the sensors
mapped to the role, or 0.0 when there are none. -/
def target_temp_for_role (critical_sensors_by_role : List (String × List String))
    (temperatures : List (String × ℚ)) (role : String) : ℚ :=
  match sensors_for_role critical_sensors_by_role temperatures role with
  | [] => 0
  | p :: rest => rest.foldl (fun a q => max a q.2) p.2

/-- Python max over the values of a non-empty dict (0 for the empty one,
which the caller rules out via validation). -/
def maxTemps (temperatures : List (String × ℚ)) : ℚ :=
  match temperatures with
  | [] => 0
  | p :: rest => rest.foldl (fun a q => max a q.2) p.2

/-- SafetyManager.handle_critical_temperature (safety.py), as the pure
trip decision; the restore_automatic_mode side effect is recorded by the
caller in the cycle result. -/
def handle_critical_temperature (cfg : Config) (max_temp : ℚ) : Bool :=
  decide (cfg.critical_temp ≤ max_temp)

/-- Dict lookup on an association list, Python d.get(k). -/
def dictGet (d : List (String × ℤ)) (k : String) : Option ℤ :=
  (d.find? fun p => p.1 == k).map Prod.snd

/-- The FanController attributes read and written by run_cycle. -/
structure CState where
  consecutive_failures : ℤ
  max_failures : ℤ
  temp_history : History
  last_target_speeds : List (String × ℤ)

/-- One cycle worth of external-world results: the sensor snapshot
(get_sensors_json composed with extract_temperatures; none models a
failed fetch), the controlled role set, the fan_io reads, and the
outcomes of the rate-limit clock and of the speed write. -/
structure CycleEnv where
  sensors_data : Option (List (String × ℚ))
  roles : List String
  critical_sensors_by_role : List (String × List String)
  current_speeds : List (String × ℤ)
  current_rpms : List (String × ℤ)
  within_min_interval : Bool
  set_speeds_ok : Bool

/-- Observable outcome of one FanController.run_cycle call. -/
structure CycleResult where
  cont : Bool
  state : CState
  restore_called : Bool
  dispatched : Bool
  raised : Bool

/-- The failure branch shared by the sensor-fetch, validation and
exception paths of run_cycle: increment the counter, restore automatic
mode and stop once it reaches max_failures, otherwise continue. -/
def failBranch (st : CState) (raised : Bool) : CycleResult :=
  let st1 := { st with consecutive_failures := st.consecutive_failures + 1 }
  if st1.max_failures ≤ st1.consecutive_failures then
    ⟨false, st1, true, false, raised⟩
  else ⟨true, st1, false, false, raised⟩

/-- FanController.run_cycle (controller.py).  The success path mirrors
the source statement by statement.  The dict comprehension at
controller.py line 145 invokes self.policy.calculate_fan_speed with two
positional arguments, target_temps_by_role[r] and
current_speeds.get(r, 0), for the three-parameter method
(role, target_temp, current_speed); whenever the role set is non-empty
Python therefore raises TypeError on the first role and the outer
except-handler treats the cycle as a failure.  With an empty role set
the comprehension is empty and the cycle completes without actuation. -/
def run_cycle (cfg : Config) (st : CState) (env : CycleEnv) : CycleResult :=
  match env.sensors_data with
  | none => failBranch st false
  | some temps =>
    if validate_temperatures temps = false then failBranch st false
    else
      let st1 : CState :=
        { st with consecutive_failures := 0,
                  temp_history := st.temp_history.update temps }
      let avg_temps := st1.temp_history.averaged_list
      let target_temps_by_role :=
        env.roles.map fun r =>
          (r, target_temp_for_role env.critical_sensors_by_role avg_temps r)
      let max_temp := maxTemps temps
      if handle_critical_temperature cfg max_temp then
        ⟨false, st1, true, false, false⟩
      else if env.current_speeds.isEmpty then
        ⟨true, st1, false, false, false⟩
      else if env.roles.isEmpty = false then
        -- the mis-called policy method raises TypeError on the first role
        failBranch st1 true
      else
        let target_speeds : List (String × ℤ) := []
        let target_speeds := apply_rpm_floors target_speeds
          (dictGet env.current_speeds) (dictGet env.current_rpms)
        let target_speeds := clamp_floor_when_lowering cfg target_speeds
          (dictGet env.current_speeds) (dictGet env.current_rpms)
        let smoothed := smooth_targets target_speeds
        let _ := target_temps_by_role
        if smoothed.any fun p =>
            cfg.min_speed_change ≤ |p.2 - (dictGet env.current_speeds p.1).getD 0| then
          if env.within_min_interval then ⟨true, st1, false, false, false⟩
          else if env.set_speeds_ok then
            ⟨true, { st1 with last_target_speeds := smoothed }, false, true, false⟩
          else ⟨true, st1, false, true, false⟩
        else ⟨true, st1, false, false, false⟩

/-- A standard configuration matching the defaults and the worked
examples of the documentation. -/
def cfgStd : Config :=
  { emergency_temp := 90, max_fan_speed := 100, hysteresis := 5,
    ramp_start := 50, ramp_range := 20, curve_min_speed := 20,
    critical_temp := 95, rpm_ignore_floor := 800, min_speed_change := 3,
    adaptive_enabled := true, adaptive_drop_step := 5, adaptive_raise_step := 15,
    adaptive_stable_cycles := 5, adaptive_temp_window := 3/2,
    adaptive_temp_aggressive := 3 }

theorem pyInt_of_nonneg {q : ℚ} (h : 0 ≤ q) : pyInt q = ⌊q⌋ := by
  simp [pyInt, not_lt.mpr h]

theorem clamp_eq_self {lo hi v : ℤ} (h1 : lo ≤ v) (h2 : v ≤ hi) :
    max lo (min hi v) = v := by
  rw [min_eq_right h2, max_eq_right h1]

theorem pyInt_interp_bounds (lo hi : ℤ) (f : ℚ) (hlohi : lo ≤ hi)
    (hf0 : 0 ≤ f) (hf1 : f ≤ 1) :
    lo ≤ lo + pyInt (f * ((hi : ℚ) - (lo : ℚ))) ∧
      lo + pyInt (f * ((hi : ℚ) - (lo : ℚ))) ≤ hi := by
  have hd0 : (0 : ℚ) ≤ (hi : ℚ) - (lo : ℚ) := by
    have := sub_nonneg.mpr hlohi
    exact_mod_cast this
  have hq0 : 0 ≤ f * ((hi : ℚ) - (lo : ℚ)) := mul_nonneg hf0 hd0
  have hq1 : f * ((hi : ℚ) - (lo : ℚ)) ≤ (hi : ℚ) - (lo : ℚ) :=
    mul_le_of_le_one_left hd0 hf1
  have hcast : ((hi - lo : ℤ) : ℚ) = (hi : ℚ) - (lo : ℚ) := by push_cast; ring
  rw [pyInt_of_nonneg hq0]
  constructor
  · have := Int.floor_nonneg.mpr hq0
    linarith
  · have hle : ((⌊f * ((hi : ℚ) - (lo : ℚ))⌋ : ℤ) : ℚ) ≤ ((hi - lo : ℤ) : ℚ) :=
      (Int.floor_le _).trans (hq1.trans_eq hcast.symm)
    have h3 : ⌊f * ((hi : ℚ) - (lo : ℚ))⌋ ≤ hi - lo := by exact_mod_cast hle
    linarith

theorem target_percent_bounds (cfg : Config) (t : ℚ) (c : ℤ)
    (h : cfg.curve_min_speed ≤ cfg.max_fan_speed) :
    cfg.curve_min_speed ≤ target_percent cfg t c ∧
      target_percent cfg t c ≤ cfg.max_fan_speed := by
  simp only [target_percent]
  split_ifs <;>
    first
      | exact ⟨le_refl _, h⟩
      | exact ⟨h, le_refl _⟩
      | exact pyInt_interp_bounds cfg.curve_min_speed cfg.max_fan_speed _ h
          (le_max_left _ _) (max_le zero_le_one (min_le_left _ _))

/-- C2: whenever the temperature is at or above emergency_temp,
calculate_fan_speed returns max_fan_speed for every role, current speed
and adaptive state, and the adaptive state is left untouched. -/
theorem emergency_overrides (cfg : Config) (role : String) (target_temp : ℚ)
    (current_speed : Option ℤ) (role_state : String → Option RoleState)
    (h : cfg.emergency_temp ≤ target_temp) :
    calculate_fan_speed cfg role target_temp current_speed role_state =
      (cfg.max_fan_speed, role_state) := by
  unfold calculate_fan_speed
  rw [if_pos h]

theorem emergency_overrides_witness :
    cfgStd.emergency_temp ≤ 95 ∧
    calculate_fan_speed cfgStd "cpu" 95 (some 30) (fun _ => none) =
      (cfgStd.max_fan_speed, fun _ => none) :=
  ⟨by norm_num [cfgStd],
   emergency_overrides cfgStd "cpu" 95 (some 30) (fun _ => none)
     (by norm_num [cfgStd])⟩

/-- C4: below the emergency threshold the base curve returns
curve_min_speed at or below the effective threshold T, max_fan_speed at
or above ramp_start + ramp_range, and otherwise interpolates linearly
with the clamped ratio and a floor, where T is ramp_start - hysteresis
exactly when the current percent exceeds curve_min_speed (stated for
ramp_range at least 1, since the source clips the divisor to 1, and for
curve_min_speed at most max_fan_speed, so that the Python truncation is
a floor). -/
theorem base_curve_formula (cfg : Config) (temp : ℚ) (current_percent : ℤ)
    (h1 : 1 ≤ cfg.ramp_range) (h2 : cfg.curve_min_speed ≤ cfg.max_fan_speed) :
    target_percent cfg temp current_percent =
      (let T : ℚ := if cfg.curve_min_speed < current_percent
          then cfg.ramp_start - cfg.hysteresis else cfg.ramp_start
       if temp ≤ T then cfg.curve_min_speed
       else if cfg.ramp_start + cfg.ramp_range ≤ temp then cfg.max_fan_speed
       else cfg.curve_min_speed +
         ⌊max 0 (min 1 ((temp - T) / cfg.ramp_range)) *
           ((cfg.max_fan_speed : ℚ) - (cfg.curve_min_speed : ℚ))⌋) := by
  have hr : max cfg.ramp_range 1 = cfg.ramp_range := max_eq_left h1
  have hd0 : (0 : ℚ) ≤ (cfg.max_fan_speed : ℚ) - (cfg.curve_min_speed : ℚ) := by
    have := sub_nonneg.mpr h2
    exact_mod_cast this
  simp only [target_percent]
  rw [hr]
  by_cases hc : cfg.curve_min_speed < current_percent
  · simp only [if_pos hc]
    split_ifs with ha hb
    · rfl
    · rfl
    · exact congrArg (cfg.curve_min_speed + ·)
        (pyInt_of_nonneg (mul_nonneg (le_max_left _ _) hd0))
  · simp only [if_neg hc]
    rw [sub_zero]
    split_ifs with ha hb
    · rfl
    · rfl
    · exact congrArg (cfg.curve_min_speed + ·)
        (pyInt_of_nonneg (mul_nonneg (le_max_left _ _) hd0))

theorem base_curve_formula_witness :
    (1 : ℚ) ≤ cfgStd.ramp_range ∧
    cfgStd.curve_min_speed ≤ cfgStd.max_fan_speed ∧
    target_percent cfgStd 60 20 = 60 :=
  ⟨by norm_num [cfgStd], by decide,
   (base_curve_formula cfgStd 60 20 (by norm_num [cfgStd]) (by decide)).trans
     (by norm_num [cfgStd])⟩

/-- C7: clamp_floor_when_lowering vetoes a reduction for a role, holding
the current percent, exactly when the target is strictly below the known
strictly positive current percent, the current RPM is known and strictly
positive, and the proportional RPM estimate is strictly below
rpm_ignore_floor; with either reading unknown, or for a raise, the
target passes through unchanged. -/
theorem rpm_floor_veto (cfg : Config) (t : ℤ) (cur_pct cur_rpm : Option ℤ) :
    (∀ p r, cur_pct = some p → cur_rpm = some r →
      clamp_entry cfg t cur_pct cur_rpm =
        if t < p ∧ 0 < p ∧ 0 < r ∧
            (r : ℚ) * ((t : ℚ) / (p : ℚ)) < (cfg.rpm_ignore_floor : ℚ)
        then p else t) ∧
    (cur_pct = none → clamp_entry cfg t cur_pct cur_rpm = t) ∧
    (cur_rpm = none → clamp_entry cfg t cur_pct cur_rpm = t) := by
  refine ⟨?_, ?_, ?_⟩
  · rintro p r rfl rfl
    simp only [clamp_entry]
    split_ifs <;> tauto
  · rintro rfl
    cases cur_rpm <;> rfl
  · rintro rfl
    cases cur_pct <;> rfl

theorem rpm_floor_veto_witness :
    clamp_entry cfgStd 40 (some 50) (some 1000) = 40 ∧
    clamp_entry cfgStd 41 (some 50) (some 1000) = 41 ∧
    clamp_entry cfgStd 39 (some 50) (some 1000) = 50 :=
  ⟨((rpm_floor_veto cfgStd 40 (some 50) (some 1000)).1 50 1000 rfl rfl).trans
     (by norm_num [cfgStd]),
   ((rpm_floor_veto cfgStd 41 (some 50) (some 1000)).1 50 1000 rfl rfl).trans
     (by norm_num [cfgStd]),
   ((rpm_floor_veto cfgStd 39 (some 50) (some 1000)).1 50 1000 rfl rfl).trans
     (by norm_num [cfgStd])⟩

/-- A configuration with max_fan_speed below 100, used to exhibit a
cycle command escaping the claimed range. -/
def cfgLowMax : Config :=
  { cfgStd with max_fan_speed := 80, adaptive_enabled := false, hysteresis := 0 }

/-- C8 counterexample: with max_fan_speed 80 the policy produces target
50 for the cpu role, the RPM-floor veto then holds the role at its
current percent 100, smooth_targets keeps 100, and 100 exceeds
max_fan_speed, so a per-role command after clamp_floor_when_lowering
does not lie within the claimed interval. -/
theorem speed_range_counterexample :
    (calculate_fan_speed cfgLowMax "cpu" 60 (some 100) (fun _ => none)).1 = 50 ∧
    clamp_floor_when_lowering cfgLowMax [("cpu", 50)]
      (fun _ => some 100) (fun _ => some 100) = [("cpu", 100)] ∧
    smooth_targets [("cpu", 100)] = [("cpu", 100)] ∧
    ¬ ((100 : ℤ) ≤ cfgLowMax.max_fan_speed) := by
  refine ⟨?_, ?_, ?_, ?_⟩
  · norm_num [calculate_fan_speed, target_percent, pyInt, cfgLowMax, cfgStd,
      max_def, min_def]
  · norm_num [clamp_floor_when_lowering, clamp_entry, cfgLowMax, cfgStd]
  · norm_num [smooth_targets, smooth_entry, max_def, min_def]
  · norm_num [cfgLowMax, cfgStd]

/-- C8 amended: the value returned by calculate_fan_speed always lies
within curve_min_speed..max_fan_speed (whenever that interval is
non-empty); clamp_floor_when_lowering leaves each role either at its
incoming target or at its current percent, which may exceed
max_fan_speed; and smooth_targets clamps each value to 0..100, not to
curve_min_speed..max_fan_speed. -/
theorem speed_range_amended :
    (∀ (cfg : Config) (role : String) (temp : ℚ) (cur : Option ℤ)
        (m : String → Option RoleState),
      cfg.curve_min_speed ≤ cfg.max_fan_speed →
      cfg.curve_min_speed ≤ (calculate_fan_speed cfg role temp cur m).1 ∧
        (calculate_fan_speed cfg role temp cur m).1 ≤ cfg.max_fan_speed) ∧
    (∀ (cfg : Config) (t : ℤ) (cp cr : Option ℤ),
      clamp_entry cfg t cp cr = t ∨
        ∃ p, cp = some p ∧ clamp_entry cfg t cp cr = p) ∧
    (∀ t : ℤ, 0 ≤ smooth_entry t ∧ smooth_entry t ≤ 100) := by
  refine ⟨?_, ?_, ?_⟩
  · intro cfg role temp cur m h
    unfold calculate_fan_speed
    split_ifs with h1 h2
    · exact ⟨h, le_refl _⟩
    · exact target_percent_bounds cfg temp (cur.getD 0) h
    · exact ⟨le_max_left _ _, max_le h (min_le_left _ _)⟩
  · intro cfg t cp cr
    rcases cp with _ | p
    · left; cases cr <;> rfl
    · rcases cr with _ | r
      · left; rfl
      · simp only [clamp_entry]
        split_ifs
        · exact Or.inr ⟨p, rfl, rfl⟩
        · exact Or.inl rfl
        · exact Or.inl rfl
  · intro t
    exact ⟨le_max_left _ _, max_le (by norm_num) (min_le_left _ _)⟩

theorem speed_range_amended_witness :
    cfgStd.curve_min_speed ≤ cfgStd.max_fan_speed ∧
    (cfgStd.curve_min_speed ≤
        (calculate_fan_speed cfgStd "cpu" 60 (some 30) (fun _ => none)).1 ∧
      (calculate_fan_speed cfgStd "cpu" 60 (some 30) (fun _ => none)).1 ≤
        cfgStd.max_fan_speed) ∧
    (0 ≤ smooth_entry 150 ∧ smooth_entry 150 ≤ 100) :=
  ⟨by decide,
   speed_range_amended.1 cfgStd "cpu" 60 (some 30) (fun _ => none) (by decide),
   speed_range_amended.2.2 150⟩

/-- C5: in the adaptive declining case the stability counter is
incremented, capped at three times adaptive_stable_cycles, when the
temperature did not rise or moved by at most adaptive_temp_window, and
reset to 0 otherwise; the speed steps down by adaptive_drop_step, never
below the base target and resetting the counter, exactly when the
updated counter has reached adaptive_stable_cycles and the temperature
is at most ramp_start; in every other declining cycle the speed holds at
the current value (stated for a current speed inside the configured
band and for the validated configuration shape, where the adaptive step
sizes are at least 1). -/
theorem adaptive_decline (cfg : Config) (role : String) (temp lt : ℚ)
    (c sc ls : ℤ) (m : String → Option RoleState)
    (hA : cfg.adaptive_enabled = true)
    (hE : temp < cfg.emergency_temp)
    (hmm : cfg.curve_min_speed ≤ cfg.max_fan_speed)
    (hreq : 1 ≤ cfg.adaptive_stable_cycles)
    (hdrop : 1 ≤ cfg.adaptive_drop_step)
    (hcmin : cfg.curve_min_speed ≤ c) (hcmax : c ≤ cfg.max_fan_speed)
    (hm : m role = some ⟨sc, lt, ls⟩)
    (hbase : target_percent cfg temp c < c) :
    calculate_fan_speed cfg role temp (some c) m =
      (let base := target_percent cfg temp c
       let sc1 : ℤ :=
         if temp - lt ≤ 0 ∨ |temp - lt| ≤ cfg.adaptive_temp_window then
           min (sc + 1) (cfg.adaptive_stable_cycles * 3)
         else 0
       if cfg.adaptive_stable_cycles ≤ sc1 ∧ temp ≤ cfg.ramp_start then
         (max (c - cfg.adaptive_drop_step) base,
          fun r => if r = role then
              some ⟨0, temp, max (c - cfg.adaptive_drop_step) base⟩
            else m r)
       else
         (c, fun r => if r = role then some ⟨sc1, temp, c⟩ else m r)) := by
  have hbnd := target_percent_bounds cfg temp c hmm
  have hscr : cfg.stable_cycles_required = cfg.adaptive_stable_cycles :=
    max_eq_right hreq
  have hds : cfg.drop_step = cfg.adaptive_drop_step := max_eq_right hdrop
  have hEne : ¬ (temp ≥ cfg.emergency_temp) := not_le.mpr hE
  have hAne : ¬ (cfg.adaptive_enabled = false) := by simp [hA]
  simp only [calculate_fan_speed, if_neg hEne, if_neg hAne, Option.getD_some,
    hm, hscr, hds, if_pos hbase]
  by_cases hw : temp - lt ≤ 0 ∨ |temp - lt| ≤ cfg.adaptive_temp_window
  · simp only [if_pos hw]
    by_cases hg : cfg.adaptive_stable_cycles ≤
        min (sc + 1) (cfg.adaptive_stable_cycles * 3) ∧ temp ≤ cfg.ramp_start
    · simp only [if_pos hg, Prod.mk.injEq]
      refine ⟨?_, trivial⟩
      have hd1 : (1 : ℤ) ≤ cfg.adaptive_drop_step := hdrop
      exact clamp_eq_self (hbnd.1.trans (le_max_right _ _))
        (max_le (by linarith) hbnd.2)
    · simp only [if_neg hg, Prod.mk.injEq]
      exact ⟨clamp_eq_self hcmin hcmax, trivial⟩
  · simp only [if_neg hw]
    have hg0 : ¬ (cfg.adaptive_stable_cycles ≤ (0 : ℤ) ∧ temp ≤ cfg.ramp_start) :=
      fun hcon => absurd hcon.1 (not_le.mpr (by linarith))
    simp only [if_neg hg0, Prod.mk.injEq]
    exact ⟨clamp_eq_self hcmin hcmax, trivial⟩

/-- Role table used by the adaptive-case witnesses and counterexample. -/
def mAdapt : String → Option RoleState :=
  fun r => if r = "cpu" then some ⟨4, 40, 50⟩ else none

theorem adaptive_decline_witness :
    target_percent cfgStd 40 50 < 50 ∧
    (calculate_fan_speed cfgStd "cpu" 40 (some 50) mAdapt).1 = 45 ∧
    (calculate_fan_speed cfgStd "cpu" 40 (some 50) mAdapt).2 "cpu" =
      some ⟨0, 40, 45⟩ := by
  have hb : target_percent cfgStd 40 50 < 50 := by
    norm_num [target_percent, cfgStd, pyInt]
  have h := adaptive_decline cfgStd "cpu" 40 40 50 4 50 mAdapt rfl
    (by norm_num [cfgStd]) (by norm_num [cfgStd]) (by norm_num [cfgStd])
    (by norm_num [cfgStd]) (by norm_num [cfgStd]) (by norm_num [cfgStd])
    rfl hb
  refine ⟨hb, ?_, ?_⟩
  · rw [h]
    norm_num [target_percent, cfgStd, pyInt]
  · rw [h]
    norm_num [target_percent, cfgStd, pyInt]

/-- C6: in the adaptive rising case the stability counter is reset to 0
and the new speed is the base target when the temperature rose by at
least adaptive_temp_aggressive or is at least ramp_start, and otherwise
the current speed raised by at most adaptive_raise_step toward the base
target (stated for a current speed at or above curve_min_speed and for
the validated configuration shape). -/
theorem adaptive_rise (cfg : Config) (role : String) (temp lt : ℚ)
    (c sc ls : ℤ) (m : String → Option RoleState)
    (hA : cfg.adaptive_enabled = true)
    (hE : temp < cfg.emergency_temp)
    (hmm : cfg.curve_min_speed ≤ cfg.max_fan_speed)
    (hraise : 1 ≤ cfg.adaptive_raise_step)
    (hcmin : cfg.curve_min_speed ≤ c)
    (hm : m role = some ⟨sc, lt, ls⟩)
    (hbase : c < target_percent cfg temp c) :
    calculate_fan_speed cfg role temp (some c) m =
      (let base := target_percent cfg temp c
       let new_speed : ℤ :=
         if cfg.adaptive_temp_aggressive ≤ temp - lt ∨ cfg.ramp_start ≤ temp
         then base else min base (c + cfg.adaptive_raise_step)
       (new_speed,
        fun r => if r = role then some ⟨0, temp, new_speed⟩ else m r)) := by
  have hbnd := target_percent_bounds cfg temp c hmm
  have hrs : cfg.raise_step = cfg.adaptive_raise_step := max_eq_right hraise
  have hEne : ¬ (temp ≥ cfg.emergency_temp) := not_le.mpr hE
  have hAne : ¬ (cfg.adaptive_enabled = false) := by simp [hA]
  simp only [calculate_fan_speed, if_neg hEne, if_neg hAne, Option.getD_some,
    hm, hrs, if_neg (lt_asymm hbase), if_pos hbase]
  by_cases hagg : cfg.adaptive_temp_aggressive ≤ temp - lt ∨ cfg.ramp_start ≤ temp
  · simp only [if_pos hagg, Prod.mk.injEq]
    exact ⟨clamp_eq_self hbnd.1 hbnd.2, trivial⟩
  · simp only [if_neg hagg, Prod.mk.injEq]
    refine ⟨?_, trivial⟩
    exact clamp_eq_self (le_min hbnd.1 (by linarith))
      ((min_le_left _ _).trans hbnd.2)

theorem adaptive_rise_witness :
    (30 : ℤ) < target_percent cfgStd 60 30 ∧
    (calculate_fan_speed cfgStd "cpu" 60 (some 30) mAdapt).1 = 80 ∧
    (calculate_fan_speed cfgStd "cpu" 60 (some 30) mAdapt).2 "cpu" =
      some ⟨0, 60, 80⟩ := by
  have hb : (30 : ℤ) < target_percent cfgStd 60 30 := by
    norm_num [target_percent, cfgStd, pyInt, max_def, min_def]
  have h := adaptive_rise cfgStd "cpu" 60 40 30 4 50 mAdapt rfl
    (by norm_num [cfgStd]) (by norm_num [cfgStd]) (by norm_num [cfgStd])
    (by norm_num [cfgStd]) rfl hb
  refine ⟨hb, ?_, ?_⟩
  · rw [h]
    norm_num [target_percent, cfgStd, pyInt, max_def, min_def]
  · rw [h]
    norm_num [target_percent, cfgStd, pyInt, max_def, min_def]

/-- Role table exhibiting the equal-case counter reset on a large
temperature drop. -/
def mEqual : String → Option RoleState :=
  fun r => if r = "cpu" then some ⟨2, 60, 20⟩ else none

/-- C9 counterexample: with the temperature dropping from 60 to 50 the
base target equals the current speed 20, delta_temp is -10 which the
declining-case test of the claim would accept (delta at most 0,
incrementing the counter to 3), yet the code resets stable_cycles to 0
because it only tests the absolute delta against the window in the
equal branch. -/
theorem equal_case_counterexample :
    target_percent cfgStd 50 20 = 20 ∧
    ((50 : ℚ) - 60 ≤ 0) ∧
    (calculate_fan_speed cfgStd "cpu" 50 (some 20) mEqual).2 "cpu" =
      some ⟨0, 50, 20⟩ ∧
    (0 : ℤ) ≠ min (2 + 1) (cfgStd.adaptive_stable_cycles * 3) := by
  have habs : |(50 : ℚ) - 60| = 10 := by
    rw [show ((50 : ℚ) - 60) = -10 by norm_num, abs_neg]
    simp [abs_of_nonneg]
  refine ⟨by norm_num [target_percent, cfgStd], by norm_num, ?_,
    by norm_num [cfgStd]⟩
  norm_num [calculate_fan_speed, target_percent, pyInt, cfgStd, mEqual,
    Config.stable_cycles_required, max_def, min_def, habs]

/-- C9 amended: in the adaptive equal case the speed is unchanged, and
stable_cycles is incremented, capped at three times
adaptive_stable_cycles, exactly when the absolute temperature delta is
at most adaptive_temp_window, and reset to 0 otherwise; unlike the
declining case, a temperature drop larger than the window also resets
the counter. -/
theorem adaptive_equal_amended (cfg : Config) (role : String) (temp lt : ℚ)
    (c sc ls : ℤ) (m : String → Option RoleState)
    (hA : cfg.adaptive_enabled = true)
    (hE : temp < cfg.emergency_temp)
    (hmm : cfg.curve_min_speed ≤ cfg.max_fan_speed)
    (hreq : 1 ≤ cfg.adaptive_stable_cycles)
    (hm : m role = some ⟨sc, lt, ls⟩)
    (hbase : target_percent cfg temp c = c) :
    calculate_fan_speed cfg role temp (some c) m =
      (c, fun r => if r = role then
          some ⟨if cfg.adaptive_temp_window < |temp - lt| then 0
                else min (sc + 1) (cfg.adaptive_stable_cycles * 3), temp, c⟩
        else m r) := by
  have hbnd := target_percent_bounds cfg temp c hmm
  rw [hbase] at hbnd
  have hscr : cfg.stable_cycles_required = cfg.adaptive_stable_cycles :=
    max_eq_right hreq
  have hEne : ¬ (temp ≥ cfg.emergency_temp) := not_le.mpr hE
  have hAne : ¬ (cfg.adaptive_enabled = false) := by simp [hA]
  simp only [calculate_fan_speed, if_neg hEne, if_neg hAne, Option.getD_some,
    hm, hscr, hbase, if_neg (lt_irrefl c), Prod.mk.injEq]
  exact ⟨clamp_eq_self hbnd.1 hbnd.2, trivial⟩

theorem adaptive_equal_amended_witness :
    target_percent cfgStd 50 20 = 20 ∧
    (calculate_fan_speed cfgStd "cpu" 50 (some 20) mEqual).1 = 20 ∧
    (calculate_fan_speed cfgStd "cpu" 50 (some 20) mEqual).2 "cpu" =
      some ⟨0, 50, 20⟩ := by
  have hb : target_percent cfgStd 50 20 = 20 := by
    norm_num [target_percent, cfgStd]
  have habs : |(50 : ℚ) - 60| = 10 := by
    rw [show ((50 : ℚ) - 60) = -10 by norm_num, abs_neg]
    simp [abs_of_nonneg]
  have h := adaptive_equal_amended cfgStd "cpu" 50 60 20 2 20 mEqual rfl
    (by norm_num [cfgStd]) (by norm_num [cfgStd]) (by norm_num [cfgStd])
    rfl hb
  refine ⟨hb, ?_, ?_⟩
  · rw [h]
  · rw [h]
    norm_num [cfgStd, habs]

theorem append_reading_other (h : History) (sensor : String) (v : ℚ)
    (s : String) (hne : s ≠ sensor) :
    (h.append_reading sensor v).samples s = h.samples s ∧
    (h.append_reading sensor v).last_seen s = h.last_seen s ∧
    (h.append_reading sensor v).cycle = h.cycle ∧
    (h.append_reading sensor v).max_samples = h.max_samples ∧
    ((s ∈ (h.append_reading sensor v).sensors) ↔ s ∈ h.sensors) := by
  refine ⟨?_, ?_, rfl, rfl, ?_⟩
  · simp [History.append_reading, hne]
  · simp [History.append_reading, hne]
  · simp only [History.append_reading]
    by_cases hc : sensor ∈ h.sensors
    · simp [hc]
    · simp [hc, List.mem_append, hne]

theorem append_foldl_absent (s : String) (u : List (String × ℚ)) :
    ∀ h : History, (∀ p ∈ u, p.1 ≠ s) →
    ((u.foldl (fun acc p => acc.append_reading p.1 p.2) h).samples s = h.samples s ∧
     (u.foldl (fun acc p => acc.append_reading p.1 p.2) h).last_seen s = h.last_seen s ∧
     (u.foldl (fun acc p => acc.append_reading p.1 p.2) h).cycle = h.cycle ∧
     (u.foldl (fun acc p => acc.append_reading p.1 p.2) h).max_samples = h.max_samples ∧
     ((s ∈ (u.foldl (fun acc p => acc.append_reading p.1 p.2) h).sensors) ↔
        s ∈ h.sensors)) := by
  induction u with
  | nil => exact fun h _ => ⟨rfl, rfl, rfl, rfl, Iff.rfl⟩
  | cons p u ih =>
    intro h hu
    have hps : s ≠ p.1 := Ne.symm (hu p (List.mem_cons_self _ _))
    have hstep := append_reading_other h p.1 p.2 s hps
    have hrec := ih (h.append_reading p.1 p.2)
      (fun q hq => hu q (List.mem_cons_of_mem _ hq))
    rw [List.foldl_cons]
    exact ⟨hrec.1.trans hstep.1, hrec.2.1.trans hstep.2.1,
      hrec.2.2.1.trans hstep.2.2.1, hrec.2.2.2.1.trans hstep.2.2.2.1,
      hrec.2.2.2.2.trans hstep.2.2.2.2⟩

theorem purge_facts (h : History) (s : String) :
    (h.purge).cycle = h.cycle ∧ (h.purge).max_samples = h.max_samples ∧
    (h.purge).samples s =
      (if h.last_seen s ≤ h.cycle - h.maxlen then none else h.samples s) ∧
    (h.purge).last_seen s =
      (if h.last_seen s ≤ h.cycle - h.maxlen then 0 else h.last_seen s) ∧
    (h.last_seen s ≤ h.cycle - h.maxlen → s ∉ (h.purge).sensors) := by
  refine ⟨rfl, rfl, rfl, rfl, ?_⟩
  intro hcond hmem
  simp only [History.purge, List.mem_filter] at hmem
  simp [hcond] at hmem

theorem update_absent (s : String) (u : List (String × ℚ)) (h : History)
    (hne : u.isEmpty = false) (hu : ∀ p ∈ u, p.1 ≠ s) :
    (h.update u).cycle = h.cycle + 1 ∧
    (h.update u).max_samples = h.max_samples ∧
    (h.update u).last_seen s =
      (if h.last_seen s ≤ h.cycle + 1 - h.maxlen then 0 else h.last_seen s) ∧
    (h.update u).samples s =
      (if h.last_seen s ≤ h.cycle + 1 - h.maxlen then none else h.samples s) ∧
    (h.last_seen s ≤ h.cycle + 1 - h.maxlen → s ∉ (h.update u).sensors) := by
  have hif : ¬ (u.isEmpty = true) := by rw [hne]; exact Bool.false_ne_true
  unfold History.update
  rw [if_neg hif]
  have hfold := append_foldl_absent s u { h with cycle := h.cycle + 1 } hu
  obtain ⟨hs1, hl1, hc1, hm1, hsens1⟩ := hfold
  set h1 := u.foldl (fun acc p => acc.append_reading p.1 p.2)
    { h with cycle := h.cycle + 1 } with hh1
  have hml : h1.maxlen = h.maxlen := by
    simp only [History.maxlen, hm1]
  obtain ⟨hpc, hpm, hps, hpl, hpsen⟩ := purge_facts h1 s
  refine ⟨?_, ?_, ?_, ?_, ?_⟩
  · rw [hpc, hc1]
  · rw [hpm, hm1]
  · rw [hpl, hl1, hc1, hml]
  · rw [hps, hs1, hl1, hc1, hml]
  · intro hcond
    apply hpsen
    rw [hl1, hc1, hml]
    exact hcond

theorem stale_core (s : String) (us : List (List (String × ℚ))) :
    ∀ h : History, us ≠ [] →
    (∀ u ∈ us, u.isEmpty = false ∧ ∀ p ∈ u, p.1 ≠ s) →
    0 ≤ h.last_seen s →
    h.last_seen s + h.maxlen ≤ h.cycle + (us.length : ℤ) →
    (us.foldl History.update h).samples s = none ∧
      s ∉ (us.foldl History.update h).sensors := by
  induction us with
  | nil => exact fun h hne => absurd rfl hne
  | cons u us ih =>
    intro h _ hus hls0 hbound
    have hu := hus u (List.mem_cons_self _ _)
    obtain ⟨hcyc, hmax, hlast, hsamp, hsens⟩ := update_absent s u h hu.1 hu.2
    by_cases hrest : us = []
    · subst hrest
      have hcond : h.last_seen s ≤ h.cycle + 1 - h.maxlen := by
        have hlen : (([u] : List (List (String × ℚ))).length : ℤ) = 1 := by
          simp
        rw [hlen] at hbound
        linarith
      rw [List.foldl_cons, List.foldl_nil]
      refine ⟨?_, hsens hcond⟩
      rw [hsamp, if_pos hcond]
    · rw [List.foldl_cons]
      have hml : (h.update u).maxlen = h.maxlen := by
        simp only [History.maxlen, hmax]
      have hls1 : (h.update u).last_seen s ≤ h.last_seen s := by
        rw [hlast]
        split_ifs
        · exact hls0
        · exact le_refl _
      have hls1z : 0 ≤ (h.update u).last_seen s := by
        rw [hlast]
        split_ifs
        · exact le_refl 0
        · exact hls0
      refine ih (h.update u) hrest
        (fun v hv => hus v (List.mem_cons_of_mem _ hv)) hls1z ?_
      rw [hml, hcyc]
      have hlen : ((u :: us).length : ℤ) = (us.length : ℤ) + 1 := by
        simp
      rw [hlen] at hbound
      linarith

theorem averaged_key_mem (h : History) (q : String × ℚ)
    (hq : q ∈ h.averaged_list) : q.1 ∈ h.sensors := by
  simp only [History.averaged_list, List.mem_filterMap] at hq
  obtain ⟨x, hx, hfx⟩ := hq
  cases hsx : h.samples x with
  | none => rw [hsx] at hfx; exact absurd hfx (by simp)
  | some vs =>
    rw [hsx] at hfx
    dsimp only at hfx
    by_cases hvs : vs.isEmpty = true
    · rw [if_pos hvs] at hfx
      exact absurd hfx (by simp)
    · rw [if_neg hvs] at hfx
      rw [← Option.some.inj hfx]
      exact hx

/-- C10: starting from any reachable history state, after a run of
non-empty updates none of which mentions the sensor, of length at least
averaging_samples, the sensor has been purged: its samples are gone, it
is no longer a key of the history, and it is absent from averaged()
(stated for averaging_samples at least 1, where the deque capacity
max(1, averaging_samples) coincides with averaging_samples; reachable
states satisfy 0 <= last_seen <= cycle). -/
theorem stale_sensor_absent (h : History) (s : String)
    (us : List (List (String × ℚ)))
    (hls0 : 0 ≤ h.last_seen s) (hinv : h.last_seen s ≤ h.cycle)
    (hms : 1 ≤ h.max_samples)
    (hus : ∀ u ∈ us, u.isEmpty = false ∧ ∀ p ∈ u, p.1 ≠ s)
    (hlen : h.max_samples ≤ (us.length : ℤ)) :
    (us.foldl History.update h).samples s = none ∧
    s ∉ (us.foldl History.update h).sensors ∧
    ∀ q ∈ (us.foldl History.update h).averaged_list, q.1 ≠ s := by
  have hmaxlen : h.maxlen = h.max_samples := max_eq_right hms
  have hne : us ≠ [] := by
    intro hnil
    subst hnil
    simp only [List.length_nil, Nat.cast_zero] at hlen
    linarith
  have hcore := stale_core s us h hne hus hls0 (by rw [hmaxlen]; linarith)
  refine ⟨hcore.1, hcore.2, ?_⟩
  intro q hq hq1
  exact hcore.2 (hq1 ▸ averaged_key_mem _ q hq)

/-- The history reached from a fresh window of capacity 2 after one
update that contains sensor b. -/
def histW : History := (History.init 2).update [("b", 50)]

theorem stale_sensor_absent_witness :
    (0 ≤ histW.last_seen "b" ∧ histW.last_seen "b" ≤ histW.cycle ∧
      1 ≤ histW.max_samples ∧
      histW.max_samples ≤ (([[("a", 1)], [("a", 2)], [("a", 3)]] :
        List (List (String × ℚ))).length : ℤ)) ∧
    (([[("a", 1)], [("a", 2)], [("a", 3)]] : List (List (String × ℚ))).foldl
        History.update histW).samples "b" = none ∧
    "b" ∉ (([[("a", 1)], [("a", 2)], [("a", 3)]] :
        List (List (String × ℚ))).foldl History.update histW).sensors ∧
    ∀ q ∈ (([[("a", 1)], [("a", 2)], [("a", 3)]] :
        List (List (String × ℚ))).foldl History.update histW).averaged_list,
      q.1 ≠ "b" := by
  refine ⟨⟨by decide, by decide, by decide, by decide⟩, ?_⟩
  exact stale_sensor_absent histW "b" [[("a", 1)], [("a", 2)], [("a", 3)]]
    (by decide) (by decide) (by decide) (by decide) (by decide)

/-- A healthy cycle environment: a valid in-range sensor snapshot, one
controlled role, readable current speed and RPM for it. -/
def envOk : CycleEnv :=
  { sensors_data := some [("k10temp:Tctl:temp1_input", 45)],
    roles := ["cpu"],
    critical_sensors_by_role := [],
    current_speeds := [("cpu", 30)],
    current_rpms := [("cpu", 900)],
    within_min_interval := false,
    set_speeds_ok := true }

/-- A cycle environment whose sensor fetch failed. -/
def envFail : CycleEnv := { envOk with sensors_data := none }

/-- A cycle environment with an out-of-range reading (fails validation). -/
def envBad : CycleEnv :=
  { envOk with sensors_data := some [("k10temp:Tctl:temp1_input", 200)] }

/-- Fresh controller state: no failures, max_failures 3, empty history. -/
def stFresh : CState := ⟨0, 3, History.init 5, []⟩

/-- Controller state one failure short of the threshold. -/
def stTwo : CState := ⟨2, 3, History.init 5, []⟩

/-- C1: evaluation of run_cycle on a fully healthy cycle (valid in-range
snapshot, one controlled role, readable speeds, no critical trip).  The
dict comprehension at controller.py line 145 passes only the governing
temperature and the current speed, two positional arguments, to the
three-parameter calculate_fan_speed; Python raises TypeError before any
per-role target exists, the outer handler eats it, and the cycle ends
counted as a failure with nothing dispatched, so the claimed call with
the role name, temperature and current speed never happens. -/
theorem run_cycle_policy_call_broken :
    (run_cycle cfgStd stFresh envOk).cont = true ∧
    (run_cycle cfgStd stFresh envOk).dispatched = false ∧
    (run_cycle cfgStd stFresh envOk).raised = true ∧
    (run_cycle cfgStd stFresh envOk).restore_called = false ∧
    (run_cycle cfgStd stFresh envOk).state.consecutive_failures = 1 := by
  norm_num [run_cycle, envOk, stFresh, cfgStd, validate_temperatures,
    maxTemps, handle_critical_temperature, failBranch]

/-- C3: evaluation of the failure counting of run_cycle.  A fetch
failure and an invalid reading each increment the counter and continue
below max_failures; the failure reaching max_failures restores
automatic mode and stops; but a successful validated reading does not
leave the counter at 0: the reset executes and the TypeError raised by
the mis-called calculate_fan_speed then re-increments it, so the cycle
ends with the counter at 1. -/
theorem run_cycle_failure_counting :
    ((run_cycle cfgStd stFresh envFail).cont = true ∧
      (run_cycle cfgStd stFresh envFail).state.consecutive_failures = 1 ∧
      (run_cycle cfgStd stFresh envFail).restore_called = false) ∧
    ((run_cycle cfgStd stFresh envBad).cont = true ∧
      (run_cycle cfgStd stFresh envBad).state.consecutive_failures = 1 ∧
      (run_cycle cfgStd stFresh envBad).restore_called = false) ∧
    ((run_cycle cfgStd stTwo envFail).cont = false ∧
      (run_cycle cfgStd stTwo envFail).state.consecutive_failures = 3 ∧
      (run_cycle cfgStd stTwo envFail).restore_called = true) ∧
    ((run_cycle cfgStd stTwo envOk).cont = true ∧
      (run_cycle cfgStd stTwo envOk).raised = true ∧
      (run_cycle cfgStd stTwo envOk).state.consecutive_failures = 1) := by
  refine ⟨?_, ?_, ?_, ?_⟩ <;>
    norm_num [run_cycle, envOk, envFail, envBad, stFresh, stTwo, cfgStd,
      validate_temperatures, maxTemps, handle_critical_temperature, failBranch]

end K8Fan
